import Mathlib

/-!
Verification of the pyrseid addressable-entity model and retrieval engine.

Each Python module of the repository is translated into a shallow Lean
embedding below:

* `base.py`     : `Pyrseid.Range` (inclusive interval with optional bounds)
* `product.py`  : `Pyrseid.BaseProduct` and its structural equality and hash key
* `tile.py`     : `Pyrseid.Tile` comparison operators
* `file.py`     : the entity path property, structural equality with
                  dictionary unification, and `BaseFile.grab`
* `download.py` : the retrieval engine (`grab`, `grab_http`, `grab_ftp`,
                  `check_request`) over an explicit filesystem and
                  transport-event model
* `platforms/gpm.py`, `platforms/trmm.py` : concrete products, resolvers
  (`determine`) and inverse resolvers (`from_path`)

Python exceptions are modelled by an error type threaded through `Except`;
the mutable filesystem is an explicit state record; datetimes follow the
proleptic Gregorian calendar exactly as `datetime` does.
-/

namespace Pyrseid

/-- Categories of Python exceptions raised by the code under study.
Message payloads are irrelevant to the contracts, so only the category is
kept. -/
inductive PyErr where
  /-- `ValueError` -/
  | valueError
  /-- `TypeError` -/
  | typeError
  /-- a failed `assert` -/
  | assertionError
  /-- `download.BadRequestError` — disguised not-found -/
  | badRequestError
  /-- an error raised by the transport while connecting (e.g. `requests`
  connection failure or `ftplib` login failure) -/
  | connectionError
  /-- an I/O error raised while streaming the body into the local file -/
  | osError
  /-- an unbound-local/name error on a missing code path -/
  | nameError
  /-- `NotImplementedError` -/
  | notImplementedError
  /-- a bare `raise Exception(...)` (invalid product name) -/
  | genericError
deriving DecidableEq, Repr

/-! ## `base.py` — Range -/

/-- `base.Range`: a closed interval whose bounds may be the unbounded
sentinel `None` (here `Option.none`). -/
structure Range (α : Type) where
  lower : Option α
  upper : Option α
deriving DecidableEq, Repr

/-- `Range.__init__` with two positional bounds: when both bounds are
finite they are normalized to `(min, max)`; otherwise they are kept
as given. -/
def Range.make [LinearOrder α] (l u : Option α) : Range α :=
  match l, u with
  | some a, some b => ⟨some (min a b), some (max a b)⟩
  | _, _ => ⟨l, u⟩

/-- `Range.__contains__`: inclusive membership, a `None` bound is
unbounded in that direction. -/
def Range.containsMem [LinearOrder α] (r : Range α) (v : α) : Bool :=
  (match r.lower with | none => true | some l => decide (l ≤ v)) &&
  (match r.upper with | none => true | some u => decide (v ≤ u))

/-! ## Datetimes

`datetime.datetime` values: year/month/day/hour/minute/second in the
proleptic Gregorian calendar.  Comparison is lexicographic on the field
tuple, which matches `datetime` comparison for the in-range values that
`datetime` admits. -/

/-- A `datetime.datetime` value (microseconds are never used by the code
under study). -/
structure DateTime where
  year : Nat
  month : Nat
  day : Nat
  hour : Nat
  minute : Nat
  second : Nat
deriving DecidableEq, Repr

/-- Lexicographic key of a datetime. -/
def DateTime.key (d : DateTime) : Nat ×ₗ (Nat ×ₗ (Nat ×ₗ (Nat ×ₗ (Nat ×ₗ Nat)))) :=
  toLex (d.year, toLex (d.month, toLex (d.day, toLex (d.hour, toLex (d.minute, d.second)))))

instance : LinearOrder DateTime :=
  LinearOrder.lift' DateTime.key (by
    intro a b h
    cases a; cases b
    simp only [DateTime.key, toLex_inj, Prod.mk.injEq] at h
    simp_all)

/-- Gregorian leap-year rule. -/
def isLeapYear (y : Nat) : Bool :=
  (y % 4 == 0 && y % 100 != 0) || (y % 400 == 0)

/-- Number of days in a month. -/
def daysInMonth (y m : Nat) : Nat :=
  if m == 2 then (if isLeapYear y then 29 else 28)
  else if m == 4 || m == 6 || m == 9 || m == 11 then 30
  else 31

/-- Number of days in the year `y` strictly before month `m`. -/
def daysBeforeMonth (y m : Nat) : Nat :=
  (List.range (m - 1)).foldl (fun acc i => acc + daysInMonth y (i + 1)) 0

/-- `datetime.toordinal`: day number of the proleptic Gregorian calendar,
with 0001-01-01 as day 1. -/
def dateToOrdinal (y m d : Nat) : Nat :=
  365 * (y - 1) + (y - 1) / 4 - (y - 1) / 100 + (y - 1) / 400 + daysBeforeMonth y m + d

/-- `datetime.fromordinal` (the 400/100/4/1-year cycle decomposition used
by the `datetime` module). -/
def ordinalToDate (n : Nat) : Nat × Nat × Nat :=
  let n0 := n - 1
  let n400 := n0 / 146097
  let r400 := n0 % 146097
  let n100 := r400 / 36524
  let r100 := r400 % 36524
  let n4 := r100 / 1461
  let r4 := r100 % 1461
  let n1 := r4 / 365
  let r1 := r4 % 365
  let year := n400 * 400 + n100 * 100 + n4 * 4 + n1 + 1
  if n1 == 4 || n100 == 4 then (year - 1, 12, 31)
  else
    let m := ((List.range 12).filter (fun i => daysBeforeMonth year (i + 1) ≤ r1)).length
    (year, m, r1 - daysBeforeMonth year m + 1)

/-- `d + datetime.timedelta(seconds=delta)` (also used with negative
deltas, e.g. subtracting one day), via the (ordinal, seconds-of-day)
representation that `datetime` arithmetic uses. -/
def DateTime.addSeconds (d : DateTime) (delta : Int) : DateTime :=
  let tot : Int := ((d.hour * 3600 + d.minute * 60 + d.second : Nat) : Int) + delta
  let rem : Nat := (tot.emod 86400).toNat
  let o : Int := ((dateToOrdinal d.year d.month d.day : Nat) : Int) + tot.ediv 86400
  let ymd := ordinalToDate o.toNat
  ⟨ymd.1, ymd.2.1, ymd.2.2, rem / 3600, rem % 3600 / 60, rem % 60⟩

/-- `utils.date_to_doy`: `(d - type(d)(d.year, 1, 1)).days + 1`. -/
def dateToDoy (d : DateTime) : Nat :=
  dateToOrdinal d.year d.month d.day - dateToOrdinal d.year 1 1 + 1

/-- `datetime.datetime.fromordinal(date.toordinal())` as used by
`trmm.File.__init__`: the date with the time-of-day dropped. -/
def DateTime.fromOrdinalOfOrdinal (d : DateTime) : DateTime :=
  let ymd := ordinalToDate (dateToOrdinal d.year d.month d.day)
  ⟨ymd.1, ymd.2.1, ymd.2.2, 0, 0, 0⟩

/-! ## String helpers (Python built-ins used by the resolvers)

All helpers recurse structurally over the character list so that concrete
computations reduce inside the kernel. -/

/-- Splitting worker for `str.split(sep)` with a one-character separator. -/
def splitCharAux (sep : Char) : List Char → List Char → List (List Char)
  | [], acc => [acc.reverse]
  | c :: cs, acc =>
    if c == sep then acc.reverse :: splitCharAux sep cs []
    else splitCharAux sep cs (c :: acc)

/-- Python `s.split(sep)` for a one-character separator (every split in
the code under study uses `'.'`, `'-'` or `'/'`). -/
def pySplit (s : String) (sep : Char) : List String :=
  (splitCharAux sep s.data []).map String.mk

/-- Python `s.startswith(pre)`. -/
def pyStartsWith (s pre : String) : Bool := pre.data.isPrefixOf s.data

/-- Python `s.endswith(suf)`. -/
def pyEndsWith (s suf : String) : Bool := suf.data.isSuffixOf s.data

/-- Python `s[:n]`. -/
def pyTake (s : String) (n : Nat) : String := String.mk (s.data.take n)

/-- Python `s[n:]`. -/
def pyDrop (s : String) (n : Nat) : String := String.mk (s.data.drop n)

/-- Python `len(s)`. -/
def pyLen (s : String) : Nat := s.data.length

/-- Python `sep.join(parts)`. -/
def pyJoin (sep : String) : List String → String
  | [] => ""
  | [x] => x
  | x :: y :: xs => x ++ sep ++ pyJoin sep (y :: xs)

/-- Decimal digits of a non-negative integer, most significant first
(`fuel` bounds the recursion and is always sufficient at `fuel = n + 1`). -/
def natDigitsAux : Nat → Nat → List Char
  | 0, _ => []
  | fuel + 1, n =>
    if n < 10 then [Char.ofNat (48 + n)]
    else natDigitsAux fuel (n / 10) ++ [Char.ofNat (48 + n % 10)]

/-- `str(n)` for a non-negative integer. -/
def natStr (n : Nat) : String := String.mk (natDigitsAux (n + 1) n)

/-- `str.zfill`. -/
def zfill (s : String) (w : Nat) : String :=
  if pyLen s ≥ w then s else String.mk (List.replicate (w - pyLen s) '0') ++ s

/-- Python `int(s)` on a non-negative decimal string, raising `ValueError`
when the string is not a number. -/
def pyInt (s : String) : Except PyErr Nat :=
  if s.data ≠ [] && s.data.all (fun c => c.isDigit) then
    .ok (s.data.foldl (fun n c => n * 10 + (c.toNat - 48)) 0)
  else .error .valueError

/-- Final component of a slash-separated path: `path.split('/')[-1]`,
which on a POSIX system is also `os.path.split(path)[-1]`. -/
def lastSlashComponent (path : String) : String :=
  (pySplit path '/').getLastD ""

/-! ## `product.py` — BaseProduct -/

/-- `product.BaseProduct`: name, version, owning platform, processing
level, and valid date coverage.  The version and level types vary by
platform (strings for GPM, integers for TRMM). -/
structure BaseProduct (ν lv : Type) where
  name : String
  version : ν
  platform : String
  level : lv
  daterange : Range DateTime
deriving DecidableEq, Repr

/-- `BaseProduct.__eq__`: compares name, version, platform and level.
(The `self is other` identity shortcut in the source returns `True`
exactly when the four fields are trivially equal, so it does not change
the boolean value.)  Note that `daterange` is NOT compared. -/
def BaseProduct.eqPy [DecidableEq ν] [DecidableEq lv]
    (a b : BaseProduct ν lv) : Bool :=
  a.name == b.name && a.version == b.version &&
    a.platform == b.platform && a.level == b.level

/-- `BaseProduct.__hash__` hashes this tuple:
`(self._name, self._version, self._platform, self._level)`. -/
def BaseProduct.hashKey (a : BaseProduct ν lv) : String × ν × String × lv :=
  (a.name, a.version, a.platform, a.level)

/-! ## `platforms/gpm.py` — products and resolver -/

/-- `gpm._valid_products_`. -/
def gpmValidProducts : List String := ["3B-HHR", "3B-HHR-E", "3B-HHR-L", "3B-MO"]

/-- `gpm._real_time_products_`. -/
def gpmRealTimeProducts : List String := ["3B-HHR-E", "3B-HHR-L"]

/-- `gpm._short_names_` dictionary lookup (the callers only pass the four
valid product names, so the default is never reached). -/
def gpmShortName (name : String) : String :=
  if name == "HHR" then "HH"
  else if name == "HHR-E" then "HHE"
  else if name == "MO" then "M"
  else if name == "HHR-L" then "HHL"
  else ""

/-- `gpm.is_product_name`. -/
def gpm_is_product_name (prod : String) : Bool := gpmValidProducts.contains prod

/-- `gpm.Product`: a `BaseProduct` plus the `_is_realtime` flag set by the
constructor. -/
structure GpmProduct extends BaseProduct String String where
  is_realtime : Bool
deriving DecidableEq, Repr

/-- `gpm.Product.__init__`: validates the product string, splits it into
level and name, and fixes version, platform and date coverage. -/
def GpmProduct.make (prodstr : String) : Except PyErr GpmProduct :=
  if ¬ gpm_is_product_name prodstr then .error .genericError
  else
    let rt := gpmRealTimeProducts.contains prodstr
    let sp := pySplit prodstr '-'
    let level := sp.headD ""
    let name := pyJoin "-" (sp.drop 1)
    let dr : Range DateTime := Range.make (some ⟨2014, 3, 12, 0, 0, 0⟩) none
    let version := if rt then "V03E" else "V03D"
    .ok ⟨⟨name, version, "GPM", level, dr⟩, rt⟩

/-- `gpm.Product.satellite`. -/
def gpmSatellite : String := "MRG"

/-- `gpm.Product.instrument`. -/
def gpmInstrument : String := "MS"

/-- `gpm.Product.algorithm`. -/
def gpmAlgorithm : String := "3IMERG"

/-- Shared head of `gpm._mo_base_url_` and `gpm._hhr_base_url_`. -/
def gpmBaseUrl : String := "http://gpm1.gesdisc.eosdis.nasa.gov/data/s4pa//"

/-- `gpm.File`: fields are `('product', 'date')`; `_tile` stays at the
`BaseFile` class default `None`; `_path`, `_is_valid`, `_is_local` are the
inherited mutable attributes. -/
structure GpmFile where
  product : Option GpmProduct
  date : Option DateTime
  tile : Option Unit
  pathCache : Option String
  is_valid : Bool
  is_local : Bool
deriving DecidableEq, Repr

/-- `gpm.File.validate`: the `type(product) is Product` check is enforced
by the embedding type; then the coverage-range check and the product-class
specific timestamp-grid checks, in source order. -/
def GpmFile.validate (product : GpmProduct) (date : Option DateTime) :
    Except PyErr Unit :=
  if ¬ (date.elim true (fun d => product.daterange.containsMem d)) then
    .error .valueError
  else
    match date with
    | none => .ok ()
    | some d =>
      if pyStartsWith product.name "HHR" then
        if ¬ (d.minute % 30 == 0 && d.second == 0) then .error .valueError
        else .ok ()
      else if product.name == "MO" then
        if ¬ (d.day == 1 && d.hour == 0 && d.minute == 0 && d.second == 0) then
          .error .valueError
        else .ok ()
      else .error .valueError

/-- `gpm.File.__init__`: validates, then stores the fields.  No path is
computed or memoized by construction (`_path` stays `None`). -/
def GpmFile.make (product : GpmProduct) (date : Option DateTime) :
    Except PyErr GpmFile := do
  GpmFile.validate product date
  pure ⟨some product, date, none, none, false, false⟩

/-- `gpm.File.determine`: builds the remote URL from the fields, following
the `_hhr_base_url_` / `_mo_base_url_` templates token for token. -/
def GpmFile.determine (product? : Option GpmProduct) (date? : Option DateTime) :
    Except PyErr String := do
  match product?, date? with
  | some product, some date =>
    let endSeq ←
      if pyStartsWith product.name "HHR" then
        let end_time := date.addSeconds (29 * 60 + 59)
        pure ("E" ++ zfill (natStr end_time.hour) 2 ++
                zfill (natStr end_time.minute) 2 ++ "59",
              zfill (natStr (date.hour * 60 + date.minute)) 4)
      else if product.name == "MO" then
        pure ("E235959", zfill (natStr date.month) 2)
      else throw PyErr.notImplementedError
    let day := zfill (natStr date.year) 4 ++ zfill (natStr date.month) 2 ++
      zfill (natStr date.day) 2
    let start := "S" ++ zfill (natStr date.hour) 2 ++ zfill (natStr date.minute) 2 ++ "00"
    let fname := product.level ++ "-" ++ product.name ++ "." ++ gpmInstrument ++ "." ++
      gpmSatellite ++ "." ++ gpmAlgorithm ++ "." ++ day ++ "-" ++ start ++ "-" ++
      endSeq.1 ++ "." ++ endSeq.2 ++ "." ++ product.version ++ ".HDF5"
    let level0 := pyTake product.level 1
    if pyStartsWith product.name "HHR" then
      let doy := dateToDoy date
      pure (gpmBaseUrl ++ product.platform ++ "_L" ++ level0 ++ "/" ++
        product.platform ++ "_" ++ gpmAlgorithm ++ gpmShortName product.name ++ "." ++
        zfill level0 2 ++ "/" ++ natStr date.year ++ "/" ++ zfill (natStr doy) 3 ++
        "/" ++ fname)
    else if product.name == "MO" then
      pure (gpmBaseUrl ++ product.platform ++ "_L" ++ level0 ++ "/" ++
        product.platform ++ "_" ++ gpmAlgorithm ++ gpmShortName product.name ++ "." ++
        zfill level0 2 ++ "/" ++ natStr date.year ++ "/" ++ fname)
    else throw PyErr.notImplementedError
  | _, _ => throw PyErr.valueError

/-- `gpm.File.from_path`: inverse resolver.  On a POSIX system both the
`is_local` and the remote branch of the source compute the final
slash-separated component, so the (swapped) branches coincide here. -/
def GpmFile.from_path (path : String) (is_localArg : Option Bool) :
    Except PyErr GpmFile := do
  let is_local := match is_localArg with
    | none => ¬ (pyStartsWith path "http://" || pyStartsWith path "ftp://")
    | some b => b
  let fname := lastSlashComponent path
  let spl := pySplit fname '.'
  if ¬ (spl.length == 8) then throw PyErr.assertionError
  let prodstr := spl.headD ""
  let product ← GpmProduct.make prodstr
  let dse := pySplit (spl.getD 4 "") '-'
  if ¬ (dse.length == 3) then throw PyErr.valueError
  let day := dse.getD 0 ""
  let start := dse.getD 1 ""
  let y ← pyInt (pyTake day 4)
  let mo ← pyInt (pyTake (pyDrop day 4) 2)
  let dd ← pyInt (pyDrop day 6)
  let h ← pyInt (pyTake (pyDrop start 1) 2)
  let mi ← pyInt (pyTake (pyDrop start 3) 2)
  let date : DateTime := ⟨y, mo, dd, h, mi, 0⟩
  GpmFile.validate product (some date)
  let f ← GpmFile.make product (some date)
  pure { f with pathCache := some path, is_valid := true, is_local := is_local }

/-! ## `platforms/trmm.py` — products and resolver -/

/-- `trmm._valid_products_`. -/
def trmmValidProducts : List String := ["3B42", "3B42_daily", "3B43"]

/-- `trmm.is_product_name`. -/
def trmm_is_product_name (prod : String) : Bool := trmmValidProducts.contains prod

/-- `trmm.Product` adds nothing to `BaseProduct` (version and level are
integers). -/
abbrev TrmmProduct := BaseProduct Nat Nat

/-- `trmm.Product.__init__`: for a version other than 6 or 7 the local
`dr` stays unbound and its use raises a name error. All valid product
names start with the digit of their level. -/
def TrmmProduct.make (product : String) (version : Nat) : Except PyErr TrmmProduct :=
  if ¬ trmm_is_product_name product then .error .genericError
  else if version == 6 then
    .ok ⟨product, 6, "TRMM", (pyInt (pyTake product 1)).toOption.getD 0,
      Range.make (some ⟨1998, 1, 1, 0, 0, 0⟩) (some ⟨2011, 6, 30, 0, 0, 0⟩)⟩
  else if version == 7 then
    .ok ⟨product, 7, "TRMM", (pyInt (pyTake product 1)).toOption.getD 0,
      Range.make (some ⟨1998, 1, 1, 0, 0, 0⟩) (some ⟨2020, 7, 31, 0, 0, 0⟩)⟩
  else .error .nameError

/-- `trmm._7A_bounds_`. -/
def trmm7ABounds : Range DateTime :=
  Range.make (some ⟨2000, 1, 1, 0, 0, 0⟩) (some ⟨2010, 9, 30, 0, 0, 0⟩)

/-- `trmm._6A_start_`. -/
def trmm6AStart : DateTime := ⟨2007, 5, 1, 0, 0, 0⟩

/-- `trmm._base_ftp_`. -/
def trmmBaseFtp : String := "://disc2.nascom.nasa.gov/data/s4pa"

/-- `trmm._base_http_`. -/
def trmmBaseHttp : String := "://disc2.nascom.nasa.gov/s4pa"

/-- `trmm.trmm_3B4X_doy`: year and day-of-year strings, with midnight
rolled back to the preceding day. -/
def trmm_3B4X_doy (d : DateTime) : String × String :=
  let d := if d.hour == 0 then d.addSeconds (-86400) else d
  (zfill (natStr d.year) 4, zfill (natStr (dateToDoy d)) 3)

/-- `trmm.File`: fields are `('product', 'date')`; `_tile` stays at the
class default `None`. -/
structure TrmmFile where
  product : Option TrmmProduct
  date : Option DateTime
  tile : Option Unit
  pathCache : Option String
  is_valid : Bool
  is_local : Bool
deriving DecidableEq, Repr

/-- `trmm.File.__init__`: type checks are enforced by the embedding
types; `datetime.datetime.fromordinal(date.toordinal())` truncates the
timestamp to midnight before it is stored; then the coverage check. -/
def TrmmFile.make (product : TrmmProduct) (date : DateTime) :
    Except PyErr TrmmFile := do
  let date := date.fromOrdinalOfOrdinal
  if ¬ product.daterange.containsMem date then throw PyErr.valueError
  pure ⟨some product, some date, none, none, false, false⟩

/-- `trmm.File.determine`: the 3B42 and 3B42_daily branches return from
inside the branch; the 3B43 branch falls through to the final return of
the source; any other product name would reach the final return with
`fname` and `doy` unbound. -/
def TrmmFile.determine (product : TrmmProduct) (date : DateTime)
    (protocol : String) : Except PyErr String := do
  let base ←
    if protocol == "http" then pure trmmBaseHttp
    else if protocol == "ftp" then pure trmmBaseFtp
    else throw PyErr.valueError
  let yr := zfill (natStr date.year) 4
  let mo := zfill (natStr date.month) 2
  let dy := zfill (natStr date.day) 2
  let rolled := trmm_3B4X_doy date
  let level := "L" ++ natStr product.level
  let ver := natStr product.version
  let prod := product.name
  if product.name == "3B42" then
    if product.version == 6 then
      let prod := prod ++ ".6"
      let yr := pyDrop yr 2
      let hr := natStr date.hour
      let ver := if decide (trmm6AStart ≤ date) then ver ++ "A" else ver
      let fname := pyJoin "." [product.name, yr ++ mo ++ dy, hr, ver, "HDF.Z"]
      pure (pyJoin "/"
        [protocol ++ base, "TRMM_" ++ level, "TRMM_" ++ prod, rolled.1, rolled.2, fname])
    else if product.version == 7 then
      let ver := if trmm7ABounds.containsMem date then ver ++ "A" else ver
      let hr := zfill (natStr date.hour) 2
      let fname := pyJoin "." [product.name, yr ++ mo ++ dy, hr, ver, "HDF.Z"]
      pure (pyJoin "/"
        [protocol ++ base, "TRMM_" ++ level, "TRMM_" ++ prod, rolled.1, rolled.2, fname])
    else throw PyErr.nameError
  else if product.name == "3B42_daily" then
    let prod := if product.version == 6 then prod ++ ".6" else prod
    let fname := pyJoin "." [product.name, yr, mo, dy, ver, "bin"]
    pure (pyJoin "/"
      [protocol ++ base, "TRMM_" ++ level, "TRMM_" ++ prod, rolled.1, rolled.2, fname])
  else if product.name == "3B43" then
    let shortVer ←
      if product.version == 6 then
        pure (pyDrop yr 2, if decide (trmm6AStart ≤ date) then ver ++ "A" else ver)
      else if product.version == 7 then
        pure (yr, if trmm7ABounds.containsMem date then ver ++ "A" else ver)
      else throw PyErr.nameError
    let prod := if product.version == 6 then prod ++ ".6" else prod
    let doy := natStr (dateToDoy date)
    let fname := pyJoin "." [product.name, shortVer.1 ++ mo ++ dy, shortVer.2, "HDF"]
    pure (pyJoin "/"
      [protocol ++ base, "TRMM_" ++ level, "TRMM_" ++ prod, yr, zfill doy 3, fname])
  else throw PyErr.nameError

/-- `trmm.File.from_path` helper `guess_century`. -/
def guess_century (dstr : String) : Except PyErr String :=
  if pyLen dstr == 6 then do
    let c ← pyInt (pyTake dstr 2)
    if c > 98 then pure ("19" ++ dstr) else pure ("20" ++ dstr)
  else pure dstr

/-- `trmm.File.from_path`: inverse resolver; note that the constructed
`File` truncates the parsed hour to midnight (via `__init__`). -/
def TrmmFile.from_path (path : String) : Except PyErr TrmmFile := do
  let fname := lastSlashComponent path
  let spl := pySplit fname '.'
  let prod := spl.headD ""
  let dateVer ←
    if prod == "3B42" then do
      let dstr ← guess_century (spl.getD 1 "")
      let y ← pyInt (pyTake dstr 4)
      let mo ← pyInt (pyTake (pyDrop dstr 4) 2)
      let dd ← pyInt (pyDrop dstr 6)
      let h ← pyInt (pyTake (spl.getD 2 "") 2)
      let ver ← pyInt (pyTake (spl.getD 3 "") 1)
      pure ((⟨y, mo, dd, h, 0, 0⟩ : DateTime), ver)
    else if prod == "3B42_daily" then do
      let y ← pyInt (spl.getD 1 "")
      let mo ← pyInt (spl.getD 2 "")
      let dd ← pyInt (spl.getD 3 "")
      let ver ← pyInt (pyTake (spl.getD 4 "") 1)
      pure ((⟨y, mo, dd, 0, 0, 0⟩ : DateTime), ver)
    else if prod == "3B43" then do
      let dstr ← guess_century (spl.getD 1 "")
      let y ← pyInt (pyTake dstr 4)
      let mo ← pyInt (pyTake (pyDrop dstr 4) 2)
      let dd ← pyInt (pyDrop dstr 6)
      let ver ← pyInt (pyTake (spl.getD 2 "") 1)
      pure ((⟨y, mo, dd, 0, 0, 0⟩ : DateTime), ver)
    else throw PyErr.valueError
  let product ← TrmmProduct.make prod dateVer.2
  let f ← TrmmFile.make product dateVer.1
  pure { f with pathCache := some path, is_valid := true, is_local := true }

/-! ## `tile.py` — Tile comparison operators -/

/-- `tile.BaseTile` coordinates (the construction-time range checks are
platform specific and not needed for the comparison operators). -/
structure Tile where
  v : Int
  h : Int
deriving DecidableEq, Repr

/-- `BaseTile.__eq__`: `self is other or (self.h == other.h and self.v == other.v)`;
identity implies the structural test, so only the structural test remains. -/
def Tile.eqPy (a b : Tile) : Bool := a.h == b.h && a.v == b.v

/-- `BaseTile.__ge__`: `(self.v, self.h) >= (other.v, other.h)` — Python
tuple comparison is lexicographic. -/
def Tile.gePy (a b : Tile) : Bool :=
  decide (a.v > b.v) || (a.v == b.v && decide (a.h ≥ b.h))

/-- `BaseTile.__le__`: literally `not self >= other` in the source. -/
def Tile.lePy (a b : Tile) : Bool := ! Tile.gePy a b

/-- `BaseTile.__gt__`: the source body is `(self.v, self.h) >= (other.v, other.h)`
— the same expression as `__ge__`. -/
def Tile.gtPy (a b : Tile) : Bool :=
  decide (a.v > b.v) || (a.v == b.v && decide (a.h ≥ b.h))

/-- `BaseTile.__lt__`: literally `not self > other` in the source. -/
def Tile.ltPy (a b : Tile) : Bool := ! Tile.gtPy a b

/-! ## `download.py` — the retrieval engine

The filesystem is an explicit record (files with contents, plus the set of
existing directories).  One logical download consumes one transport event
describing what the remote side does: a connection failure, or a response
streamed in chunks that may fail after a given number of chunks. -/

/-- Local filesystem state: files with their byte contents, and existing
directories. -/
structure FS where
  files : List (String × List Nat)
  dirs : List String
deriving DecidableEq, Repr

/-- `os.path.exists` on a file path. -/
def FS.fileExists (fs : FS) (p : String) : Bool := fs.files.any (fun kv => kv.1 == p)

/-- `open(p, 'wb')` followed by writing `content`. -/
def FS.writeFile (fs : FS) (p : String) (content : List Nat) : FS :=
  ⟨(p, content) :: fs.files.filter (fun kv => ¬ kv.1 == p), fs.dirs⟩

/-- `os.remove`. -/
def FS.removeFile (fs : FS) (p : String) : FS :=
  ⟨fs.files.filter (fun kv => ¬ kv.1 == p), fs.dirs⟩

/-- `os.path.isdir`. -/
def FS.dirExists (fs : FS) (d : String) : Bool := fs.dirs.contains d

/-- `os.makedirs`. -/
def FS.mkdirs (fs : FS) (d : String) : FS := ⟨fs.files, d :: fs.dirs⟩

/-- `download.ftp_prefix` (renamed). -/
def ftpScheme : String := "ftp://"

/-- `download.http_prefix` and `download.https_prefix` (renamed). -/
def httpScheme : String := "http://"

/-- See `httpScheme`. -/
def httpsScheme : String := "https://"

/-- `download.is_ftp_path`. -/
def is_ftp_path (path : String) : Bool := pyStartsWith path ftpScheme

/-- `download.is_http_path`. -/
def is_http_path (path : String) : Bool :=
  pyStartsWith path httpScheme || pyStartsWith path httpsScheme

/-- The final `requests.Response` of a retrieval: final URL after
redirects, and the transport status code. -/
structure Response where
  url : String
  status_code : Nat
deriving DecidableEq, Repr

/-- `download._bad_request_pages`: known redirect targets of missing
resources. -/
def bad_request_pages : List String := ["http://disc.sci.gsfc.nasa.gov/404.html"]

/-- `download.check_request`: raises `BadRequestError` exactly when the
final URL is one of the known missing-resource pages; the status code is
never consulted. -/
def check_request (response : Response) : Except PyErr Unit :=
  if bad_request_pages.contains response.url then .error .badRequestError else .ok ()

/-- What the hypertext transport does for one request. -/
inductive HttpEvent where
  /-- `requests.get` itself raises (connection refused, DNS failure, …). -/
  | connError
  /-- a response arrives; the body is streamed in `chunks`; if
  `failAfter = some n`, writing fails after `n` chunks were written. -/
  | resp (r : Response) (chunks : List (List Nat)) (failAfter : Option Nat)
deriving DecidableEq, Repr

/-- What the file-transfer transport does for one request. -/
inductive FtpEvent where
  /-- `ftplib.FTP(server)` / `login` raises. -/
  | loginError
  /-- `retrbinary` streams `chunks` into the open file; if
  `failAfter = some n`, it raises (e.g. `error_perm`) after `n` chunks. -/
  | transfer (chunks : List (List Nat)) (failAfter : Option Nat)
deriving DecidableEq, Repr

/-- `download.grab_http` (and, identically for our purposes,
`download.grab_https`): fetch the response, run `check_request` BEFORE the
destination file is opened, then stream chunk by chunk (empty keep-alive
chunks are skipped, which leaves the byte content unchanged). -/
def grab_http (remote_filepath local_filepath : String) (ev : HttpEvent) (fs : FS) :
    Except PyErr Bool × FS :=
  match remote_filepath, ev with
  | _, .connError => (.error .connectionError, fs)
  | _, .resp r chunks failAfter =>
    match check_request r with
    | .error e => (.error e, fs)
    | .ok _ =>
      match failAfter with
      | none => (.ok true, fs.writeFile local_filepath chunks.flatten)
      | some n => (.error .osError, fs.writeFile local_filepath (chunks.take n).flatten)

/-- `download.grab_ftp`: asserts the destination directory exists, then
connects (or reuses a pooled connection) and streams into the open file;
every exception is re-raised.  The Python function returns `None`, which
is falsy, hence the payload `false`. -/
def grab_ftp (remote_filepath local_filepath : String) (ev : FtpEvent) (fs : FS) :
    Except PyErr Bool × FS :=
  if ¬ fs.dirExists (pyJoin "/" ((pySplit local_filepath '/').dropLast)) then
    (.error .assertionError, fs)
  else
    match remote_filepath, ev with
    | _, .loginError => (.error .connectionError, fs)
    | _, .transfer chunks failAfter =>
      match failAfter with
      | none => (.ok false, fs.writeFile local_filepath chunks.flatten)
      | some n => (.error .osError, fs.writeFile local_filepath (chunks.take n).flatten)

/-- `download.grab`: validate `err_action`, dispatch on the URL scheme
inside the `try`, convert `BadRequestError` according to the policy, and
clean up the destination file on any other exception.  (On every
exception path the local `success` is still falsy, so the cleanup guard
reduces to the `os.path.exists` test.) -/
def grab (remote_filepath local_filepath : String) (err_action : String)
    (fev : FtpEvent) (hev : HttpEvent) (fs : FS) : Except PyErr Bool × FS :=
  if ¬ (err_action == "raise" || err_action == "ignore") then (.error .valueError, fs)
  else
    let step : Except PyErr Bool × FS :=
      if is_ftp_path remote_filepath then grab_ftp remote_filepath local_filepath fev fs
      else if is_http_path remote_filepath then grab_http remote_filepath local_filepath hev fs
      else (.error .valueError, fs)
    match step with
    | (.ok _, fs1) => (.ok true, fs1)
    | (.error .badRequestError, fs1) =>
      if err_action == "raise" then (.error .badRequestError, fs1) else (.ok false, fs1)
    | (.error e, fs1) =>
      let fs2 := if fs1.fileExists local_filepath then fs1.removeFile local_filepath else fs1
      (.error e, fs2)

/-! ## `file.py` — the entity model

`BaseFile` instance state relevant to the contracts: the declared field
values (in declaration order), the memoized `_path`, and `_is_local`.
The concrete type's `determine` resolver is passed explicitly.  For the
`__eq__` clause that reassigns `__dict__`, entity objects are modelled as
indices into a heap of such records, so that pointer aliasing is
observable. -/

/-- The `__dict__` of a `BaseFile` instance (field values in declaration
order, memoized `_path`, `_is_local`). -/
structure EntityState (V : Type) where
  fvals : List (Option V)
  pathCache : Option String
  isLocalFlag : Bool
deriving DecidableEq, Repr

/-- `BaseFile.is_spec`: all declared fields are non-null. -/
def EntityState.is_spec (e : EntityState V) : Bool := e.fvals.all (fun v => v.isSome)

/-- The string copy `s[:]` performed by the `path` property. -/
def strCopy (s : String) : String := String.mk s.data

/-- `BaseFile.path`: raise on an under-specified entity; otherwise
resolve and memoize on first access; always return `self._path[:]`.  The
third component counts resolver invocations made by this access. -/
def EntityState.pathProp (det : List (Option V) → Except PyErr String)
    (e : EntityState V) : Except PyErr (String × EntityState V × Nat) :=
  if e.is_spec = false then .error .valueError
  else
    match e.pathCache with
    | none =>
      match det e.fvals with
      | .error err => .error err
      | .ok p => .ok (strCopy p, { e with pathCache := some p }, 1)
    | some p => .ok (strCopy p, e, 0)

/-- `BaseFile.is_local`: `not self.path.startswith(('http://', 'ftp://'))`
(resolves the path if needed). -/
def EntityState.isLocalProp (det : List (Option V) → Except PyErr String)
    (e : EntityState V) : Except PyErr (Bool × EntityState V) :=
  match EntityState.pathProp det e with
  | .error err => .error err
  | .ok (p, e1, _) => .ok (! (pyStartsWith p "http://" || pyStartsWith p "ftp://"), e1)

/-- `BaseFile.filename`: both branches of the source split the resolved
path on the separator, which on POSIX is `/` in either case. -/
def EntityState.filenameProp (det : List (Option V) → Except PyErr String)
    (e : EntityState V) : Except PyErr (String × EntityState V) :=
  match EntityState.isLocalProp det e with
  | .error err => .error err
  | .ok (_, e1) =>
    match EntityState.pathProp det e1 with
    | .error err => .error err
    | .ok (p, e2, _) => .ok (lastSlashComponent p, e2)

/-- `os.path.join` for one component (POSIX). -/
def osJoin (d f : String) : String :=
  if pyStartsWith f "/" then f
  else if d == "" then f
  else if pyEndsWith d "/" then d ++ f
  else d ++ "/" ++ f

/-- `utils.ensure_dir_exists` — also the inline
`if not os.path.isdir(directory): os.makedirs(directory)` step of
`BaseFile.grab`. -/
def ensure_dir_exists (fs : FS) (d : String) : FS :=
  if ¬ fs.dirExists d then fs.mkdirs d else fs

/-- `BaseFile.grab`, modelled with `exact_dir` given and `top_dir = None`
(so the argument-count guard passes), `update_path=True` and silent
`verbose`: ensure the directory, skip when a non-replaced local copy
exists, otherwise call the retrieval engine and on success repoint the
entity at the local copy.  Returns the outcome, the entity, the
filesystem, and the number of engine invocations (network transfers). -/
def fileGrab (det : List (Option V) → Except PyErr String)
    (e : EntityState V) (exact_dir : String) (replace : Bool) (err_action : String)
    (fev : FtpEvent) (hev : HttpEvent) (fs : FS) :
    Except PyErr Unit × EntityState V × FS × Nat :=
  let fs := ensure_dir_exists fs exact_dir
  match EntityState.filenameProp det e with
  | .error err => (.error err, e, fs, 0)
  | .ok (fname, e) =>
    let local_path := osJoin exact_dir fname
    if replace == false && fs.fileExists local_path then
      (.ok (), { e with pathCache := some local_path, isLocalFlag := true }, fs, 0)
    else
      match EntityState.isLocalProp det e with
      | .error err => (.error err, e, fs, 0)
      | .ok (lcl, e) =>
        if !lcl && e.is_spec then
          match EntityState.pathProp det e with
          | .error err => (.error err, e, fs, 0)
          | .ok (rp, e, _) =>
            match grab rp local_path err_action fev hev fs with
            | (.error err, fs1) => (.error err, e, fs1, 1)
            | (.ok success, fs1) =>
              if success then
                (.ok (), { e with pathCache := some local_path, isLocalFlag := true }, fs1, 1)
              else (.ok (), e, fs1, 1)
        else (.ok (), e, fs, 0)

/-! ### `BaseFile.__eq__` with `__dict__` reassignment

Entity objects are indices into a heap of `__dict__` records; the
operation returns the comparison result together with the two objects'
dict pointers afterwards (Python reassigns `other.__dict__ = self.__dict__`
or vice versa) and the heap. -/

/-- Read an object's `__dict__`. -/
def heapGet (h : List (EntityState V)) (i : Nat) : EntityState V :=
  h.getD i ⟨[], none, false⟩

/-- Replace an object's `__dict__` contents. -/
def heapSet (h : List (EntityState V)) (i : Nat) (d : EntityState V) :
    List (EntityState V) := h.set i d

/-- A later in-place mutation of an object's resolved path (as the
retrieval operation performs), used to observe sharing. -/
def heapSetPath (h : List (EntityState V)) (i : Nat) (p : String) :
    List (EntityState V) :=
  heapSet h i { heapGet h i with pathCache := some p }

/-- `BaseFile.__eq__`: the `type(self) is type(other)` guard holds by the
embedding type; compare every declared field; when equal, evaluate
`is_local` on both sides (Python short-circuit order) and redirect the
non-local object's `__dict__` pointer to the local object's dict.
Returns `(result, self dict pointer, other dict pointer, heap)`. -/
def fileEqPy [DecidableEq V] (det : List (Option V) → Except PyErr String)
    (selfId otherId : Nat) (h : List (EntityState V)) :
    Except PyErr (Bool × Nat × Nat × List (EntityState V)) :=
  let dS := heapGet h selfId
  let dO := heapGet h otherId
  if dS.fvals == dO.fvals then
    match EntityState.isLocalProp det dS with
    | .error err => .error err
    | .ok (lS, dS1) =>
      let h1 := heapSet h selfId dS1
      if lS then
        match EntityState.isLocalProp det (heapGet h1 otherId) with
        | .error err => .error err
        | .ok (lO, dO1) =>
          let h2 := heapSet h1 otherId dO1
          if ¬ lO then .ok (true, selfId, selfId, h2)
          else .ok (true, selfId, otherId, h2)
      else
        match EntityState.isLocalProp det (heapGet h1 otherId) with
        | .error err => .error err
        | .ok (lO, dO1) =>
          let h2 := heapSet h1 otherId dO1
          if lO then .ok (true, otherId, otherId, h2)
          else .ok (true, selfId, otherId, h2)
  else .ok (false, selfId, otherId, h)

/-! ## Helper lemmas -/

/-- The copy `s[:]` of a string equals the string as a value. -/
theorem strCopy_eq (s : String) : strCopy s = s := rfl

/-- Writing a file does not touch the directory set. -/
theorem FS.dirs_writeFile (fs : FS) (p : String) (c : List Nat) :
    (fs.writeFile p c).dirs = fs.dirs := rfl

/-- Removing a file does not touch the directory set. -/
theorem FS.dirs_removeFile (fs : FS) (p : String) :
    (fs.removeFile p).dirs = fs.dirs := rfl

/-- After writing, the file exists. -/
theorem FS.fileExists_writeFile (fs : FS) (p : String) (c : List Nat) :
    (fs.writeFile p c).fileExists p = true := by
  simp [FS.writeFile, FS.fileExists]

/-- After removal, the file no longer exists. -/
theorem FS.fileExists_removeFile (fs : FS) (p : String) :
    (fs.removeFile p).fileExists p = false := by
  simp [FS.removeFile, FS.fileExists, List.any_eq_true]

/-- The engine never touches the directory set. -/
theorem grab_dirs_eq (rm lc a : String) (fev : FtpEvent) (hev : HttpEvent) (fs : FS) :
    (grab rm lc a fev hev fs).2.dirs = fs.dirs := by
  unfold grab grab_ftp grab_http check_request
  rcases fev with _ | ⟨cs, fa⟩ <;> rcases hev with _ | ⟨r, cs2, fa2⟩
  all_goals repeat' split
  all_goals dsimp only
  all_goals repeat' split
  all_goals simp_all [FS.removeFile, FS.writeFile]

/-- Under `err_action='raise'`, a non-exceptional engine result is a true
success and has written the destination file. -/
theorem grab_raise_ok (rm lc : String) (fev : FtpEvent) (hev : HttpEvent)
    (fs fs2 : FS) (b : Bool)
    (h : grab rm lc "raise" fev hev fs = (.ok b, fs2)) :
    b = true ∧ fs2.fileExists lc = true := by
  revert h
  unfold grab grab_ftp grab_http check_request
  rcases fev with _ | ⟨cs, fa⟩ <;> rcases hev with _ | ⟨r, cs2, fa2⟩
  all_goals repeat' split
  all_goals try dsimp only
  all_goals repeat' split
  all_goals intro h
  all_goals simp_all [FS.fileExists_writeFile]
  all_goals (rcases h with ⟨h1, h2⟩; subst h2; simp [FS.fileExists_writeFile])

/-- Ensuring a directory makes it exist. -/
theorem ensure_dir_exists_dirExists (fs : FS) (d : String) :
    (ensure_dir_exists fs d).dirExists d = true := by
  unfold ensure_dir_exists
  split
  · simp [FS.mkdirs, FS.dirExists]
  · simp_all

/-- Ensuring an existing directory is a no-op. -/
theorem ensure_dir_exists_of_exists (fs : FS) (d : String)
    (h : fs.dirExists d = true) : ensure_dir_exists fs d = fs := by
  simp [ensure_dir_exists, h]

/-- The `path` property on an entity whose path is already memoized:
cache hit, no resolver invocation, state unchanged. -/
theorem pathProp_cached {V : Type} (det : List (Option V) → Except PyErr String)
    (e : EntityState V) (rp : String)
    (hspec : e.is_spec = true) (hc : e.pathCache = some rp) :
    EntityState.pathProp det e = .ok (rp, e, 0) := by
  unfold EntityState.pathProp
  rw [hspec, hc]
  simp [strCopy_eq]

/-- `is_local` on an entity with a memoized path. -/
theorem isLocalProp_cached {V : Type} (det : List (Option V) → Except PyErr String)
    (e : EntityState V) (rp : String)
    (hspec : e.is_spec = true) (hc : e.pathCache = some rp) :
    EntityState.isLocalProp det e =
      .ok (! (pyStartsWith rp "http://" || pyStartsWith rp "ftp://"), e) := by
  unfold EntityState.isLocalProp
  rw [pathProp_cached det e rp hspec hc]

/-- `filename` on an entity with a memoized path. -/
theorem filenameProp_cached {V : Type} (det : List (Option V) → Except PyErr String)
    (e : EntityState V) (rp : String)
    (hspec : e.is_spec = true) (hc : e.pathCache = some rp) :
    EntityState.filenameProp det e = .ok (lastSlashComponent rp, e) := by
  unfold EntityState.filenameProp
  rw [isLocalProp_cached det e rp hspec hc]
  simp [pathProp_cached det e rp hspec hc]

/-- `BaseFile.grab` when a non-replaced local copy is already present:
repoint the entity, no engine invocation. -/
theorem fileGrab_cached_hit {V : Type} (det : List (Option V) → Except PyErr String)
    (e : EntityState V) (dir rp a : String) (fev : FtpEvent) (hev : HttpEvent) (fs : FS)
    (hspec : e.is_spec = true) (hc : e.pathCache = some rp)
    (hex : (ensure_dir_exists fs dir).fileExists (osJoin dir (lastSlashComponent rp)) = true) :
    fileGrab det e dir false a fev hev fs =
      (.ok (), { e with pathCache := some (osJoin dir (lastSlashComponent rp)), isLocalFlag := true },
       ensure_dir_exists fs dir, 0) := by
  unfold fileGrab
  rw [filenameProp_cached det e rp hspec hc]
  simp [hex]

/-- `BaseFile.grab` on a remote, fully specified entity whose local copy
is not yet present: exactly one engine invocation. -/
theorem fileGrab_cached_miss_remote {V : Type} (det : List (Option V) → Except PyErr String)
    (e : EntityState V) (dir rp a : String) (fev : FtpEvent) (hev : HttpEvent) (fs : FS)
    (hspec : e.is_spec = true) (hc : e.pathCache = some rp)
    (hrem : (pyStartsWith rp "http://" || pyStartsWith rp "ftp://") = true)
    (hex : (ensure_dir_exists fs dir).fileExists (osJoin dir (lastSlashComponent rp)) = false) :
    fileGrab det e dir false a fev hev fs =
      (match grab rp (osJoin dir (lastSlashComponent rp)) a fev hev (ensure_dir_exists fs dir) with
       | (.error err, fs1) => (.error err, e, fs1, 1)
       | (.ok success, fs1) =>
         if success then
           (.ok (), { e with pathCache := some (osJoin dir (lastSlashComponent rp)), isLocalFlag := true },
            fs1, 1)
         else (.ok (), e, fs1, 1)) := by
  unfold fileGrab
  rw [filenameProp_cached det e rp hspec hc]
  simp [hex, isLocalProp_cached det e rp hspec hc, hrem,
    pathProp_cached det e rp hspec hc, hspec]

/-- Writing the heap slot back with its own contents is a no-op. -/
theorem heapSet_heapGet {V : Type} (h : List (EntityState V)) (i : Nat) :
    heapSet h i (heapGet h i) = h := by
  induction h generalizing i with
  | nil => simp [heapSet, heapGet]
  | cons a t ih =>
    cases i with
    | zero => simp [heapSet, heapGet]
    | succ n => simpa [heapSet, heapGet] using ih n

/-! ## Claim theorems -/

/-- C6: for finite bounds `a` and `b` supplied in either order,
`Range(a, b).contains(x)` holds iff `min a b ≤ x ≤ max a b` (inclusive);
with an unbounded sentinel the other bound is kept as-is (no reordering)
and membership tests only the finite bound. -/
theorem range_contains_minmax {α : Type} [LinearOrder α] (a b x : α) (u : Option α) :
    ((Range.make (some a) (some b)).containsMem x = true ↔ min a b ≤ x ∧ x ≤ max a b) ∧
    (Range.make none u = ⟨none, u⟩) ∧ (Range.make u none = ⟨u, none⟩) ∧
    ((Range.make none (some b)).containsMem x = true ↔ x ≤ b) ∧
    ((Range.make (some a) none).containsMem x = true ↔ a ≤ x) := by
  refine ⟨?_, ?_, ?_, ?_, ?_⟩ <;> cases u? : u <;>
    simp [Range.make, Range.containsMem]

/-- C8 (amended): `BaseProduct` equality is structural over the four
fields (name, version, platform, level) — date coverage is NOT compared —
and the hash key is exactly that four-field tuple, so hashing is
consistent with equality. -/
theorem product_eq_four_fields {ν lv : Type} [DecidableEq ν] [DecidableEq lv]
    (a b : BaseProduct ν lv) :
    (BaseProduct.eqPy a b = true ↔
      a.name = b.name ∧ a.version = b.version ∧ a.platform = b.platform ∧
        a.level = b.level) ∧
    (BaseProduct.eqPy a b = true ↔ a.hashKey = b.hashKey) := by
  simp [BaseProduct.eqPy, BaseProduct.hashKey, Prod.ext_iff, and_assoc]

/-- C8 (counterexample): two products that agree on name, version,
platform and level but have different date coverages compare equal under
`BaseProduct.__eq__`, refuting the claim that equality is over all five
declared fields. -/
theorem product_eq_ignores_daterange_cex :
    BaseProduct.eqPy
      (⟨"IMERG", "V03D", "GPM", "3B",
        Range.make (some ⟨2014, 3, 12, 0, 0, 0⟩) none⟩ : BaseProduct String String)
      ⟨"IMERG", "V03D", "GPM", "3B",
        Range.make (some ⟨2015, 1, 1, 0, 0, 0⟩) none⟩ = true ∧
    (⟨"IMERG", "V03D", "GPM", "3B",
        Range.make (some ⟨2014, 3, 12, 0, 0, 0⟩) none⟩ : BaseProduct String String).daterange ≠
      (⟨"IMERG", "V03D", "GPM", "3B",
        Range.make (some ⟨2015, 1, 1, 0, 0, 0⟩) none⟩ : BaseProduct String String).daterange := by
  refine ⟨rfl, ?_⟩
  intro hcontra
  simp [Range.make] at hcontra

/-- C9 (code evaluation at the failing input): for `a = b = Tile(v=0, h=0)`
the source's operators give `a == b` true but `a <= b` FALSE and `a > b`
TRUE (`__le__` is `not self >= other` and the `__gt__` body is the `>=`
comparison), contradicting a lexicographic order, under which an element
is `<=` and not `>` itself.  `__ge__`, `__lt__` and `__eq__` do follow the
lexicographic order. -/
theorem tile_ordering_ops_eval :
    Tile.eqPy ⟨0, 0⟩ ⟨0, 0⟩ = true ∧
    Tile.gePy ⟨0, 0⟩ ⟨0, 0⟩ = true ∧
    Tile.ltPy ⟨0, 0⟩ ⟨0, 0⟩ = false ∧
    Tile.lePy ⟨0, 0⟩ ⟨0, 0⟩ = false ∧
    Tile.gtPy ⟨0, 0⟩ ⟨0, 0⟩ = true := by decide

/-- C4: for one representative fully specified input per archive —
a GPM half-hourly product at a 30-minute-aligned timestamp, a GPM monthly
product at the first instant of a month, and a TRMM 3-hourly (3B42)
product at the on-grid timestamp 2005-07-01 00:00 — parsing the path
produced by the forward resolver recovers the original identifying fields
(`product`, `date`, and the absent `tile`). -/
theorem resolver_roundtrip_representatives :
    (((GpmProduct.make "3B-HHR").bind fun p =>
      (GpmFile.determine (some p) (some ⟨2014, 7, 1, 1, 30, 0⟩)).bind fun url =>
      (GpmFile.from_path url none).map fun f =>
        (f.product == some p && f.date == some (⟨2014, 7, 1, 1, 30, 0⟩ : DateTime) &&
          f.tile == none)) = .ok true) ∧
    (((GpmProduct.make "3B-MO").bind fun p =>
      (GpmFile.determine (some p) (some ⟨2014, 7, 1, 0, 0, 0⟩)).bind fun url =>
      (GpmFile.from_path url none).map fun f =>
        (f.product == some p && f.date == some (⟨2014, 7, 1, 0, 0, 0⟩ : DateTime) &&
          f.tile == none)) = .ok true) ∧
    (((TrmmProduct.make "3B42" 7).bind fun p =>
      (TrmmFile.determine p ⟨2005, 7, 1, 0, 0, 0⟩ "http").bind fun url =>
      (TrmmFile.from_path url).map fun f =>
        (f.product == some p && f.date == some (⟨2005, 7, 1, 0, 0, 0⟩ : DateTime) &&
          f.tile == none)) = .ok true) := by
  exact ⟨rfl, rfl, rfl⟩

/-- C7: for every GPM half-hourly product and every timestamp not aligned
to the 30-minute grid with zero seconds (in particular any minute value of
15), both `validate` and the constructor raise an invalid-field
`ValueError`; and no constructed `gpm.File` ever carries a computed path
(`_path` is `None` after construction), so the failure occurs before any
path is computed or memoized. -/
theorem gpm_halfhourly_misaligned_rejected
    (p : GpmProduct) (d : DateTime)
    (hhhr : pyStartsWith p.name "HHR" = true)
    (hmis : (d.minute % 30 == 0 && d.second == 0) = false) :
    GpmFile.validate p (some d) = .error .valueError ∧
    GpmFile.make p (some d) = .error .valueError ∧
    (∀ (q : GpmProduct) (d? : Option DateTime) (f : GpmFile),
      GpmFile.make q d? = .ok f → f.pathCache = none) := by
  have hval : GpmFile.validate p (some d) = .error .valueError := by
    unfold GpmFile.validate
    split
    · rfl
    · simp only [hhhr, if_true, hmis]
      rfl
  refine ⟨hval, ?_, ?_⟩
  · unfold GpmFile.make
    rw [hval]
    rfl
  · intro q d? f hf
    unfold GpmFile.make at hf
    cases hv : GpmFile.validate q d? <;> rw [hv] at hf <;>
      simp_all [Except.bind]
    exact congrArg GpmFile.pathCache hf.symm

/-- C3: accessing `path` raises the under-specification error exactly
when some declared field is null; otherwise an unresolved path is
computed once by the type's resolver from the current field values and
memoized — a later access invokes the resolver zero times and returns
the same string — and every access returns the copy `self._path[:]` of
the cached string, equal to it as a value. -/
theorem path_underspec_memoize_copy {V : Type}
    (det : List (Option V) → Except PyErr String) (e : EntityState V)
    (hdet : ∀ vs, vs.all (fun v => v.isSome) = true → ∃ p, det vs = .ok p) :
    (EntityState.pathProp det e = .error .valueError ↔ e.is_spec = false) ∧
    (e.is_spec = true → e.pathCache = none → ∀ p, det e.fvals = .ok p →
      EntityState.pathProp det e = .ok (strCopy p, { e with pathCache := some p }, 1) ∧
      EntityState.pathProp det { e with pathCache := some p } =
        .ok (strCopy p, { e with pathCache := some p }, 0) ∧
      strCopy p = p) ∧
    (e.is_spec = true → ∀ p, e.pathCache = some p →
      EntityState.pathProp det e = .ok (strCopy p, e, 0)) := by
  refine ⟨?_, ?_, ?_⟩
  · unfold EntityState.pathProp
    cases hspec : e.is_spec with
    | false => simp
    | true =>
      simp only [Bool.true_eq_false, iff_false]
      cases hc : e.pathCache with
      | some p => simp
      | none =>
        obtain ⟨p, hp⟩ := hdet e.fvals hspec
        rw [hp]
        simp
  · intro hspec hc p hp
    have hspec2 : ({ e with pathCache := some p } : EntityState V).is_spec = true := hspec
    refine ⟨?_, ?_, rfl⟩
    · unfold EntityState.pathProp
      rw [hspec, hc, hp]
      simp
    · unfold EntityState.pathProp
      rw [hspec2]
      simp
  · intro hspec p hc
    unfold EntityState.pathProp
    rw [hspec, hc]
    simp

/-- Witness for C3: a one-field entity over `Nat` with a constant
resolver, first unresolved and then resolved. -/
theorem path_underspec_memoize_copy_witness :
    ((EntityState.pathProp (V := Nat) (fun _ => .ok "http://srv/f")
        ⟨[some 1], none, false⟩ = .error .valueError ↔
      (⟨[some 1], none, false⟩ : EntityState Nat).is_spec = false) ∧
     ((⟨[some 1], none, false⟩ : EntityState Nat).is_spec = true →
      (⟨[some 1], none, false⟩ : EntityState Nat).pathCache = none →
      ∀ p, (fun _ => .ok "http://srv/f" : List (Option Nat) → Except PyErr String)
            (⟨[some 1], none, false⟩ : EntityState Nat).fvals = .ok p →
        EntityState.pathProp (fun _ => .ok "http://srv/f") ⟨[some 1], none, false⟩ =
          .ok (strCopy p, { (⟨[some 1], none, false⟩ : EntityState Nat) with
                pathCache := some p }, 1) ∧
        EntityState.pathProp (fun _ => .ok "http://srv/f")
            { (⟨[some 1], none, false⟩ : EntityState Nat) with pathCache := some p } =
          .ok (strCopy p, { (⟨[some 1], none, false⟩ : EntityState Nat) with
                pathCache := some p }, 0) ∧
        strCopy p = p) ∧
     ((⟨[some 1], none, false⟩ : EntityState Nat).is_spec = true →
      ∀ p, (⟨[some 1], none, false⟩ : EntityState Nat).pathCache = some p →
        EntityState.pathProp (fun _ => .ok "http://srv/f") ⟨[some 1], none, false⟩ =
          .ok (strCopy p, ⟨[some 1], none, false⟩, 0))) :=
  path_underspec_memoize_copy (fun _ => .ok "http://srv/f") ⟨[some 1], none, false⟩
    (fun _ _ => ⟨"http://srv/f", rfl⟩)

/-- C10 (amended): `__eq__` compares every declared field; when the two
entities are equal and exactly one of them is local, the source executes
`other.__dict__ = self.__dict__` (or the mirror-image assignment), i.e.
it redirects the non-local object's dict pointer at the local object's
dict, so both objects share one mutable dict afterwards; the heap of dict
contents is unchanged, and unequal field values yield `False` with no
pointer change. -/
theorem fileEq_unifies_by_alias {V : Type} [DecidableEq V]
    (det : List (Option V) → Except PyErr String)
    (h : List (EntityState V)) (i j : Nat) (pS pO : String)
    (hSc : (heapGet h i).pathCache = some pS)
    (hOc : (heapGet h j).pathCache = some pO)
    (hSs : (heapGet h i).is_spec = true)
    (hOs : (heapGet h j).is_spec = true)
    (hLocS : (pyStartsWith pS "http://" || pyStartsWith pS "ftp://") = false)
    (hRemO : (pyStartsWith pO "http://" || pyStartsWith pO "ftp://") = true)
    (hfv : (heapGet h i).fvals = (heapGet h j).fvals) :
    fileEqPy det i j h = .ok (true, i, i, h) ∧
    fileEqPy det j i h = .ok (true, i, i, h) ∧
    (∀ (h2 : List (EntityState V)) (i2 j2 : Nat),
      (heapGet h2 i2).fvals ≠ (heapGet h2 j2).fvals →
      fileEqPy det i2 j2 h2 = .ok (false, i2, j2, h2)) := by
  have hlocS : EntityState.isLocalProp det (heapGet h i) = .ok (true, heapGet h i) := by
    unfold EntityState.isLocalProp EntityState.pathProp
    rw [hSs, hSc]
    simp [strCopy_eq, hLocS]
  have hlocO : EntityState.isLocalProp det (heapGet h j) = .ok (false, heapGet h j) := by
    unfold EntityState.isLocalProp EntityState.pathProp
    rw [hOs, hOc]
    simp [strCopy_eq, hRemO]
  refine ⟨?_, ?_, ?_⟩
  · unfold fileEqPy
    dsimp only
    rw [hfv]
    simp [hlocS, hlocO, heapSet_heapGet]
  · unfold fileEqPy
    dsimp only
    rw [← hfv]
    simp [hlocS, hlocO, heapSet_heapGet]
  · intro h2 i2 j2 hne
    unfold fileEqPy
    dsimp only
    simp [hne]

/-- C10 (counterexample): two equal one-field entities, the first local
and the second remote; `__eq__` returns `True` and redirects the second
object's dict pointer to dict 0 — the objects now SHARE dict 0, whose
contents are mutable: a later path update through dict 0 is observed
through both objects, refuting the no-shared-mutable-state claim (the
claim predicts the pointers stay `(0, 1)` with the path value copied). -/
theorem fileEq_shares_dict_cex :
    (fileEqPy (V := Nat) (fun _ => .ok "") 0 1
      [⟨[some 5], some "/data/f.h5", false⟩, ⟨[some 5], some "http://server/f.h5", false⟩]
      = .ok (true, 0, 0,
        [⟨[some 5], some "/data/f.h5", false⟩,
         ⟨[some 5], some "http://server/f.h5", false⟩])) ∧
    (heapGet (heapSetPath (V := Nat)
        [⟨[some 5], some "/data/f.h5", false⟩, ⟨[some 5], some "http://server/f.h5", false⟩]
        0 "/elsewhere/g.h5") 0).pathCache = some "/elsewhere/g.h5" :=
  ⟨rfl, rfl⟩

/-- Witness for C10 (amended) on a concrete two-entity heap. -/
theorem fileEq_unifies_by_alias_witness :
    (fileEqPy (V := Nat) (fun _ => .ok "") 0 1
      [⟨[some 7], some "/d/a.h5", false⟩, ⟨[some 7], some "ftp://s/a.h5", false⟩]
      = .ok (true, 0, 0,
        [⟨[some 7], some "/d/a.h5", false⟩, ⟨[some 7], some "ftp://s/a.h5", false⟩])) ∧
    (fileEqPy (V := Nat) (fun _ => .ok "") 1 0
      [⟨[some 7], some "/d/a.h5", false⟩, ⟨[some 7], some "ftp://s/a.h5", false⟩]
      = .ok (true, 0, 0,
        [⟨[some 7], some "/d/a.h5", false⟩, ⟨[some 7], some "ftp://s/a.h5", false⟩])) ∧
    (∀ (h2 : List (EntityState Nat)) (i2 j2 : Nat),
      (heapGet h2 i2).fvals ≠ (heapGet h2 j2).fvals →
      fileEqPy (V := Nat) (fun _ => .ok "") i2 j2 h2 = .ok (false, i2, j2, h2)) :=
  fileEq_unifies_by_alias (fun _ => .ok "")
    [⟨[some 7], some "/d/a.h5", false⟩, ⟨[some 7], some "ftp://s/a.h5", false⟩]
    0 1 "/d/a.h5" "ftp://s/a.h5" rfl rfl rfl rfl (by decide) (by decide) rfl

/-- C1: when the final response URL is in the configured table of known
missing-resource redirect targets, the engine raises `BadRequestError`
(the response status code is never consulted, so this holds even for a
success status); `err_action='ignore'` converts exactly this category
into a boolean `False` return, while a connection failure or a mid-stream
I/O failure still propagates under `ignore`. -/
theorem grab_false_success_policy
    (remote lc : String) (r : Response) (chunks : List (List Nat))
    (failAfter : Option Nat) (fev : FtpEvent) (fs : FS)
    (hhttp : is_http_path remote = true)
    (hnftp : is_ftp_path remote = false)
    (hbad : bad_request_pages.contains r.url = true) :
    grab remote lc "raise" fev (.resp r chunks failAfter) fs =
      (.error .badRequestError, fs) ∧
    grab remote lc "ignore" fev (.resp r chunks failAfter) fs = (.ok false, fs) ∧
    (grab remote lc "ignore" fev .connError fs).1 = .error .connectionError ∧
    (∀ (r2 : Response) (chunks2 : List (List Nat)) (n2 : Nat),
      bad_request_pages.contains r2.url = false →
      (grab remote lc "ignore" fev (.resp r2 chunks2 (some n2)) fs).1 =
        .error .osError) := by
  have hbad2 : r.url ∈ bad_request_pages := by simpa using hbad
  refine ⟨?_, ?_, ?_, ?_⟩
  · simp [grab, grab_http, check_request, hhttp, hnftp, hbad2]
  · simp [grab, grab_http, check_request, hhttp, hnftp, hbad2]
  · simp only [grab, grab_http, hhttp, hnftp]
    split <;> simp_all
  · intro r2 chunks2 n2 hgood
    simp only [grab, grab_http, check_request, hhttp, hnftp, hgood]
    split <;> simp_all

/-- C2: the engine never removes (nor creates) directories — the `dirs`
component is unchanged by every invocation — and whenever a transfer
fails after the destination file was opened for writing (a mid-stream
failure on either transport; the false-success case is detected by
`check_request` BEFORE the file is opened and leaves the filesystem
untouched), no file exists at the destination path when control
returns. -/
theorem grab_cleanup_after_open_failure
    (remote lc a : String) (fev : FtpEvent) (hev : HttpEvent) (fs : FS)
    (ha : (a == "raise" || a == "ignore") = true) :
    ((grab remote lc a fev hev fs).2.dirs = fs.dirs) ∧
    (∀ (r : Response) (chunks : List (List Nat)) (n : Nat),
      bad_request_pages.contains r.url = false →
      is_http_path remote = true → is_ftp_path remote = false →
      (grab remote lc a fev (.resp r chunks (some n)) fs).1 = .error .osError ∧
      (grab remote lc a fev (.resp r chunks (some n)) fs).2.fileExists lc = false) ∧
    (∀ (chunks : List (List Nat)) (n : Nat),
      is_ftp_path remote = true →
      fs.dirExists (pyJoin "/" ((pySplit lc '/').dropLast)) = true →
      (grab remote lc a (.transfer chunks (some n)) hev fs).1 = .error .osError ∧
      (grab remote lc a (.transfer chunks (some n)) hev fs).2.fileExists lc = false) ∧
    (∀ (r : Response) (chunks : List (List Nat)) (fa2 : Option Nat),
      bad_request_pages.contains r.url = true →
      is_http_path remote = true → is_ftp_path remote = false →
      (grab remote lc a fev (.resp r chunks fa2) fs).2 = fs) := by
  refine ⟨grab_dirs_eq remote lc a fev hev fs, ?_, ?_, ?_⟩
  · intro r chunks n hgood hhttp hnftp
    have hgood2 : r.url ∉ bad_request_pages := by simpa using hgood
    simp [grab, grab_http, check_request, ha, hhttp, hnftp, hgood2,
      FS.fileExists_writeFile, FS.fileExists_removeFile]
  · intro chunks n hftp hdir
    simp [grab, grab_ftp, ha, hftp, hdir,
      FS.fileExists_writeFile, FS.fileExists_removeFile]
  · intro r chunks fa2 hbad hhttp hnftp
    simp only [grab, grab_http, check_request, ha, hhttp, hnftp, hbad]
    split <;> simp_all
    split <;> rfl

/-- C5: for a remote, fully specified entity (resolved remote path `rp`),
invoking `BaseFile.grab` twice with the same destination directory and
`replace=False` performs at most one network transfer: the first call
makes at most one engine invocation, and after it succeeds the second
call finds the local copy present, invokes the engine zero times, and
returns the entity and filesystem unchanged — in particular the entity's
path keeps the value it had after the first invocation. -/
theorem fileGrab_idempotent {V : Type}
    (det : List (Option V) → Except PyErr String) (e e1 : EntityState V)
    (dir rp : String) (fev fev2 : FtpEvent) (hev hev2 : HttpEvent)
    (fs fs1 : FS) (n1 : Nat)
    (hspec : e.is_spec = true)
    (hcache : e.pathCache = some rp)
    (hrem : (pyStartsWith rp "http://" || pyStartsWith rp "ftp://") = true)
    (hfn : lastSlashComponent (osJoin dir (lastSlashComponent rp)) = lastSlashComponent rp)
    (hrun : fileGrab det e dir false "raise" fev hev fs = (.ok (), e1, fs1, n1)) :
    n1 ≤ 1 ∧
    fileGrab det e1 dir false "raise" fev2 hev2 fs1 = (.ok (), e1, fs1, 0) := by
  have hjoin : osJoin dir (lastSlashComponent (osJoin dir (lastSlashComponent rp))) =
      osJoin dir (lastSlashComponent rp) := by rw [hfn]
  by_cases hex :
      (ensure_dir_exists fs dir).fileExists (osJoin dir (lastSlashComponent rp)) = true
  · rw [fileGrab_cached_hit det e dir rp "raise" fev hev fs hspec hcache hex] at hrun
    simp only [Prod.mk.injEq, true_and] at hrun
    obtain ⟨he1, hfs1, hn1⟩ := hrun
    subst he1; subst hfs1; subst hn1
    refine ⟨Nat.zero_le 1, ?_⟩
    have hex2 : (ensure_dir_exists (ensure_dir_exists fs dir) dir).fileExists
        (osJoin dir (lastSlashComponent (osJoin dir (lastSlashComponent rp)))) = true := by
      rw [hjoin, ensure_dir_exists_of_exists _ dir (ensure_dir_exists_dirExists fs dir)]
      exact hex
    have h2 := fileGrab_cached_hit det
      { e with pathCache := some (osJoin dir (lastSlashComponent rp)), isLocalFlag := true }
      dir (osJoin dir (lastSlashComponent rp)) "raise" fev2 hev2 (ensure_dir_exists fs dir)
      hspec rfl hex2
    rw [hjoin, ensure_dir_exists_of_exists _ dir (ensure_dir_exists_dirExists fs dir)] at h2
    exact h2
  · rw [fileGrab_cached_miss_remote det e dir rp "raise" fev hev fs hspec hcache hrem
      (by simpa using hex)] at hrun
    rcases hgr : grab rp (osJoin dir (lastSlashComponent rp)) "raise" fev hev
        (ensure_dir_exists fs dir) with ⟨res, fsx⟩
    rw [hgr] at hrun
    cases res with
    | error err => simp at hrun
    | ok b =>
      obtain ⟨hb, hfx⟩ := grab_raise_ok _ _ _ _ _ _ _ hgr
      subst hb
      simp only [if_true, Prod.mk.injEq, true_and] at hrun
      obtain ⟨he1, hfs1, hn1⟩ := hrun
      subst he1; subst hfs1; subst hn1
      refine ⟨Nat.le_refl 1, ?_⟩
      have hdx : fsx.dirExists dir = true := by
        have hd := grab_dirs_eq rp (osJoin dir (lastSlashComponent rp)) "raise" fev hev
          (ensure_dir_exists fs dir)
        rw [hgr] at hd
        show fsx.dirs.contains dir = true
        rw [hd]
        exact ensure_dir_exists_dirExists fs dir
      have hex2 : (ensure_dir_exists fsx dir).fileExists
          (osJoin dir (lastSlashComponent (osJoin dir (lastSlashComponent rp)))) = true := by
        rw [hjoin, ensure_dir_exists_of_exists _ dir hdx]
        exact hfx
      have h2 := fileGrab_cached_hit det
        { e with pathCache := some (osJoin dir (lastSlashComponent rp)), isLocalFlag := true }
        dir (osJoin dir (lastSlashComponent rp)) "raise" fev2 hev2 fsx hspec rfl hex2
      rw [hjoin, ensure_dir_exists_of_exists _ dir hdx] at h2
      exact h2

/-- Witness for C5: a GPM-like remote entity fetched into `/data` over a
successful one-chunk hypertext transfer, then re-requested. -/
theorem fileGrab_idempotent_witness :
    (1 : Nat) ≤ 1 ∧
    fileGrab (V := Nat) (fun _ => .ok "http://srv/sub/f.h5")
        ⟨[some 1], some "/data/f.h5", true⟩ "/data" false "raise" .loginError
        (.resp ⟨"http://srv/ok", 200⟩ [[7]] none)
        ⟨[("/data/f.h5", [7])], ["/data"]⟩ =
      (.ok (), ⟨[some 1], some "/data/f.h5", true⟩, ⟨[("/data/f.h5", [7])], ["/data"]⟩, 0) :=
  fileGrab_idempotent (fun _ => .ok "http://srv/sub/f.h5")
    ⟨[some 1], some "http://srv/sub/f.h5", false⟩
    ⟨[some 1], some "/data/f.h5", true⟩ "/data" "http://srv/sub/f.h5"
    .loginError .loginError
    (.resp ⟨"http://srv/ok", 200⟩ [[7]] none) (.resp ⟨"http://srv/ok", 200⟩ [[7]] none)
    ⟨[], []⟩ ⟨[("/data/f.h5", [7])], ["/data"]⟩ 1
    rfl rfl (by decide) (by decide) rfl

/-- Witness for C1: the TRMM missing-page redirect target with transport
status 200, behind an `http://` remote. -/
theorem grab_false_success_policy_witness :
    grab "http://srv/f" "/data/f" "raise" .loginError
        (.resp ⟨"http://disc.sci.gsfc.nasa.gov/404.html", 200⟩ [[1]] none) ⟨[], ["/data"]⟩ =
      (.error .badRequestError, ⟨[], ["/data"]⟩) ∧
    grab "http://srv/f" "/data/f" "ignore" .loginError
        (.resp ⟨"http://disc.sci.gsfc.nasa.gov/404.html", 200⟩ [[1]] none) ⟨[], ["/data"]⟩ =
      (.ok false, ⟨[], ["/data"]⟩) ∧
    (grab "http://srv/f" "/data/f" "ignore" .loginError .connError ⟨[], ["/data"]⟩).1 =
      .error .connectionError ∧
    (∀ (r2 : Response) (chunks2 : List (List Nat)) (n2 : Nat),
      bad_request_pages.contains r2.url = false →
      (grab "http://srv/f" "/data/f" "ignore" .loginError
        (.resp r2 chunks2 (some n2)) ⟨[], ["/data"]⟩).1 = .error .osError) :=
  grab_false_success_policy "http://srv/f" "/data/f"
    ⟨"http://disc.sci.gsfc.nasa.gov/404.html", 200⟩ [[1]] none .loginError ⟨[], ["/data"]⟩
    (by decide) (by decide) (by decide)

/-- Witness for C2 under `err_action='raise'` with a stale file already
present at the destination. -/
theorem grab_cleanup_after_open_failure_witness :
    ((grab "http://srv/f" "/data/f" "raise" .loginError .connError
        ⟨[("/data/f", [9])], ["/data"]⟩).2.dirs = (⟨[("/data/f", [9])], ["/data"]⟩ : FS).dirs) ∧
    (∀ (r : Response) (chunks : List (List Nat)) (n : Nat),
      bad_request_pages.contains r.url = false →
      is_http_path "http://srv/f" = true → is_ftp_path "http://srv/f" = false →
      (grab "http://srv/f" "/data/f" "raise" .loginError (.resp r chunks (some n))
        ⟨[("/data/f", [9])], ["/data"]⟩).1 = .error .osError ∧
      (grab "http://srv/f" "/data/f" "raise" .loginError (.resp r chunks (some n))
        ⟨[("/data/f", [9])], ["/data"]⟩).2.fileExists "/data/f" = false) ∧
    (∀ (chunks : List (List Nat)) (n : Nat),
      is_ftp_path "http://srv/f" = true →
      (⟨[("/data/f", [9])], ["/data"]⟩ : FS).dirExists
        (pyJoin "/" ((pySplit "/data/f" '/').dropLast)) = true →
      (grab "http://srv/f" "/data/f" "raise" (.transfer chunks (some n)) .connError
        ⟨[("/data/f", [9])], ["/data"]⟩).1 = .error .osError ∧
      (grab "http://srv/f" "/data/f" "raise" (.transfer chunks (some n)) .connError
        ⟨[("/data/f", [9])], ["/data"]⟩).2.fileExists "/data/f" = false) ∧
    (∀ (r : Response) (chunks : List (List Nat)) (fa2 : Option Nat),
      bad_request_pages.contains r.url = true →
      is_http_path "http://srv/f" = true → is_ftp_path "http://srv/f" = false →
      (grab "http://srv/f" "/data/f" "raise" .loginError (.resp r chunks fa2)
        ⟨[("/data/f", [9])], ["/data"]⟩).2 = ⟨[("/data/f", [9])], ["/data"]⟩) :=
  grab_cleanup_after_open_failure "http://srv/f" "/data/f" "raise" .loginError .connError
    ⟨[("/data/f", [9])], ["/data"]⟩ (by decide)

/-- Witness for C7 at the half-hourly product `3B-HHR` and the timestamp
2014-07-01 01:15:00. -/
theorem gpm_halfhourly_misaligned_rejected_witness :
    GpmFile.validate
        ⟨⟨"HHR", "V03D", "GPM", "3B", Range.make (some ⟨2014, 3, 12, 0, 0, 0⟩) none⟩, false⟩
        (some ⟨2014, 7, 1, 1, 15, 0⟩) = .error .valueError ∧
    GpmFile.make
        ⟨⟨"HHR", "V03D", "GPM", "3B", Range.make (some ⟨2014, 3, 12, 0, 0, 0⟩) none⟩, false⟩
        (some ⟨2014, 7, 1, 1, 15, 0⟩) = .error .valueError ∧
    (∀ (q : GpmProduct) (d? : Option DateTime) (f : GpmFile),
      GpmFile.make q d? = .ok f → f.pathCache = none) :=
  gpm_halfhourly_misaligned_rejected _ _ (by decide) (by decide)

end Pyrseid
